import Mathlib

/-!
Formal model of the PythonMonkey bridge core: the cross-heap liveness table and
its GC sweep hook (`handleSharedPythonMonkeyMemory` in pythonmonkey.cc), the
`PyBytesProxyHandler` object-projection proxy over an immutable Python `bytes`
buffer, its `BytesIterator` iteration adapter, the `eval` entry point's
result-translation and error paths, and the `setSpiderMonkeyException`
diagnostic builder.  Machine pointers (PyType*, PersistentRooted*) are modelled
by their identities as natural numbers; byte buffers by `List Nat`.
-/

namespace PythonMonkey

/-- One entry of the liveness association table `PyTypeToGCThing`: the identity
of the host wrapper (`PyType *` key), the host-side liveness observations made
by the sweep hook (`PyObject_GC_IsFinalized` result and `ob_refcnt`), and the
identities of the `JS::PersistentRooted` GC root handles the wrapper keeps
alive (the mapped `std::vector`). -/
structure Entry where
  wrapper : Nat
  finalized : Bool
  refcnt : Nat
  handles : List Nat
deriving DecidableEq, Repr

/-- The host-unreachability test of the sweep hook:
`PyObject_GC_IsFinalized(pyIt->first->getPyObject()) || ... ->ob_refcnt == 1`
(the bridge holds one reference, so refcount 1 means no external host
referrer). -/
def hostUnreachable (e : Entry) : Bool :=
  e.finalized || e.refcnt == 1

/-- Whether some entry of `table` lists the handle `h` (the inner
`std::find` scan over every other entry's handle vector). -/
def listedIn (h : Nat) (table : List Entry) : Bool :=
  table.any (fun e => e.handles.contains h)

/-- The erase-while-iterating loop of `handleSharedPythonMonkeyMemory`.
`done` holds the entries already visited and kept (the iterator only moves
forward, so they stay in the map); the second argument holds the entries not
yet visited.  For a host-unreachable entry, each of its handles is deleted
exactly when no other entry of the map at that moment (`done ++ rest`) lists
it, and the entry is erased; a host-reachable entry is kept untouched.
Returns the final table and the handles released, in release order. -/
def sweepGo (done : List Entry) : List Entry → List Entry × List Nat
  | [] => (done, [])
  | e :: rest =>
    if hostUnreachable e then
      let released := e.handles.filter (fun h => !listedIn h (done ++ rest))
      let r := sweepGo done rest
      (r.1, released ++ r.2)
    else
      sweepGo (done ++ [e]) rest

/-- The two GC callback phases of `JSGCStatus` that the hook distinguishes. -/
inductive JSGCStatus where
  | JSGC_BEGIN
  | JSGC_END
deriving DecidableEq, Repr

/-- The GC callback `handleSharedPythonMonkeyMemory`: at `JSGC_BEGIN` it runs
the sweep over the liveness table; at any other status it does nothing. -/
def handleSharedPythonMonkeyMemory (status : JSGCStatus) (table : List Entry) :
    List Entry × List Nat :=
  match status with
  | .JSGC_BEGIN => sweepGo [] table
  | .JSGC_END => (table, [])

lemma listedIn_eq_false_iff (h : Nat) (l : List Entry) :
    listedIn h l = false ↔ ∀ e, e ∈ l → h ∉ e.handles := by
  simp [listedIn, List.any_eq_false]

lemma listedIn_append (h : Nat) (l₁ l₂ : List Entry) :
    listedIn h (l₁ ++ l₂) = (listedIn h l₁ || listedIn h l₂) := by
  simp [listedIn, List.any_append]

lemma sweepGo_fst : ∀ (rest done : List Entry),
    (sweepGo done rest).1 = done ++ rest.filter (fun e => !hostUnreachable e)
  | [], done => by simp [sweepGo]
  | e :: rest, done => by
    cases he : hostUnreachable e with
    | true =>
      simp [sweepGo, he, sweepGo_fst rest done]
    | false =>
      simp [sweepGo, he, sweepGo_fst rest (done ++ [e])]

lemma mem_sweepGo_released : ∀ (rest done : List Entry) (h : Nat),
    h ∈ (sweepGo done rest).2 ↔
      (listedIn h done = false ∧ (∃ e, e ∈ rest ∧ h ∈ e.handles) ∧
        ∀ e, e ∈ rest → h ∈ e.handles → hostUnreachable e = true)
  | [], done, h => by simp [sweepGo]
  | e :: rest, done, h => by
    have hrest := listedIn_eq_false_iff h rest
    by_cases he : hostUnreachable e = true
    · have ih := mem_sweepGo_released rest done h
      simp only [sweepGo, if_pos he, List.mem_append, List.mem_filter,
        Bool.not_eq_true', listedIn_append, Bool.or_eq_false_iff, ih,
        List.mem_cons]
      constructor
      · rintro (⟨hmem, hd, hr⟩ | ⟨hd, ⟨e2, he2, hh2⟩, hall⟩)
        · refine ⟨hd, ⟨e, Or.inl rfl, hmem⟩, ?_⟩
          rintro e2 (rfl | he2) hh2
          · exact he
          · exact absurd hh2 (hrest.mp hr e2 he2)
        · refine ⟨hd, ⟨e2, Or.inr he2, hh2⟩, ?_⟩
          rintro e3 (rfl | he3) hh3
          · exact he
          · exact hall e3 he3 hh3
      · rintro ⟨hd, ⟨e2, he2, hh2⟩, hall⟩
        by_cases hr : listedIn h rest = false
        · rcases he2 with rfl | he2
          · exact Or.inl ⟨hh2, hd, hr⟩
          · exact absurd hh2 (hrest.mp hr e2 he2)
        · have htr : listedIn h rest = true := by
            cases hx : listedIn h rest
            · exact absurd hx hr
            · rfl
          rcases List.any_eq_true.mp htr with ⟨e3, he3, hh3⟩
          refine Or.inr ⟨hd, ⟨e3, he3, by simpa using hh3⟩,
            fun e4 he4 hh4 => hall e4 (Or.inr he4) hh4⟩
    · have ih := mem_sweepGo_released rest (done ++ [e]) h
      have hone : listedIn h [e] = false ↔ h ∉ e.handles := by
        simp [listedIn]
      simp only [sweepGo, if_neg he, ih, listedIn_append, Bool.or_eq_false_iff,
        List.mem_cons]
      constructor
      · rintro ⟨⟨hd, hne⟩, ⟨e2, he2m, hh2⟩, hall⟩
        refine ⟨hd, ⟨e2, Or.inr he2m, hh2⟩, ?_⟩
        rintro e3 (rfl | he3) hh3
        · exact absurd hh3 (hone.mp hne)
        · exact hall e3 he3 hh3
      · rintro ⟨hd, ⟨e2, he2m, hh2⟩, hall⟩
        have hne : h ∉ e.handles := fun hh => he (hall e (Or.inl rfl) hh)
        rcases he2m with rfl | he2m
        · exact absurd hh2 hne
        · exact ⟨⟨hd, hone.mpr hne⟩, ⟨e2, he2m, hh2⟩,
            fun e3 he3 hh3 => hall e3 (Or.inr he3) hh3⟩

/-- C1: during a sweep-hook invocation no GC root handle is released while any
entry still lists it.  Entry processing is atomic in the single-threaded hook
(the handle deletions and the `erase` of their entry happen in one step with no
observation point between them), so the statement is: every handle the
invocation releases is listed by no entry of the resulting table, and every
entry of the input table that listed it was judged host-unreachable — hence
retired by this very invocation.  In particular a handle shared by two or more
entries survives until its last listing entry is retired. -/
theorem sweep_never_releases_listed_handle (table : List Entry) (h : Nat)
    (hrel : h ∈ (handleSharedPythonMonkeyMemory JSGCStatus.JSGC_BEGIN table).2) :
    (∀ e, e ∈ (handleSharedPythonMonkeyMemory JSGCStatus.JSGC_BEGIN table).1 →
      h ∉ e.handles) ∧
    (∀ e, e ∈ table → h ∈ e.handles → hostUnreachable e = true) := by
  simp only [handleSharedPythonMonkeyMemory] at *
  have hc := (mem_sweepGo_released table [] h).mp hrel
  refine ⟨?_, hc.2.2⟩
  intro e hmem hh
  rw [sweepGo_fst table []] at hmem
  simp only [List.nil_append, List.mem_filter, Bool.not_eq_true'] at hmem
  have := hc.2.2 e hmem.1 hh
  rw [hmem.2] at this
  exact Bool.false_ne_true this

/-- Witness for `sweep_never_releases_listed_handle` at the concrete table
holding one bridge-only wrapper (refcount 1) listing handle 7. -/
theorem sweep_never_releases_listed_handle_w :
    hostUnreachable ⟨0, false, 1, [7]⟩ = true :=
  (sweep_never_releases_listed_handle [⟨0, false, 1, [7]⟩] 7 (by decide)).2
    ⟨0, false, 1, [7]⟩ (by decide) (by decide)

/-- C2: the sweep at the start of a collector cycle keeps exactly the
host-reachable entries untouched (an entry is host-unreachable exactly when
the host collector finalized its wrapper or the bridge is its sole referrer,
i.e. `finalized || refcnt == 1`), and it releases a handle precisely when some
entry listed it and every entry listing it was host-unreachable — i.e. exactly
when, at the moment its last listing entry was processed, no other entry of
the table still listed it. -/
theorem handleSharedPythonMonkeyMemory_sweep_spec (table : List Entry) :
    (handleSharedPythonMonkeyMemory JSGCStatus.JSGC_BEGIN table).1 =
      table.filter (fun e => !hostUnreachable e) ∧
    ∀ h : Nat,
      h ∈ (handleSharedPythonMonkeyMemory JSGCStatus.JSGC_BEGIN table).2 ↔
        ((∃ e, e ∈ table ∧ h ∈ e.handles) ∧
          ∀ e, e ∈ table → h ∈ e.handles → hostUnreachable e = true) := by
  constructor
  · simpa using sweepGo_fst table []
  · intro h
    rw [handleSharedPythonMonkeyMemory, mem_sweepGo_released table [] h]
    simp [listedIn]

/-- Witness for `handleSharedPythonMonkeyMemory_sweep_spec` on a two-entry
table: the host-reachable entry (refcount 5) survives, the bridge-only one is
retired. -/
theorem handleSharedPythonMonkeyMemory_sweep_spec_w :
    (handleSharedPythonMonkeyMemory JSGCStatus.JSGC_BEGIN
        [⟨0, false, 1, [7]⟩, ⟨1, false, 5, [8]⟩]).1 =
      [⟨0, false, 1, [7]⟩, ⟨1, false, 5, [8]⟩].filter
        (fun e => !hostUnreachable e) :=
  (handleSharedPythonMonkeyMemory_sweep_spec
    [⟨0, false, 1, [7]⟩, ⟨1, false, 5, [8]⟩]).1

/-! PyBytesProxyHandler: the object-projection proxy over an immutable Python
`bytes` buffer (PyBytesProxyHandler.cc). A JS property id is an integer, a
string, or a symbol; the only symbol the handler distinguishes is the
well-known iteration-protocol symbol `Symbol.iterator`. -/

/-- A JS symbol, identified by its `JS::SymbolCode`: the iteration-protocol
symbol or any other well-known/private symbol. -/
inductive SymCode where
  | iterator
  | other (code : Nat)
deriving DecidableEq, Repr

/-- A JS property id (`JS::HandleId`): integer, string, or symbol. -/
inductive JSId where
  | int (n : Nat)
  | str (s : String)
  | sym (c : SymCode)
deriving DecidableEq, Repr

/-- The state a `PyBytesProxyHandler` proxy closes over: the bytes of the
underlying `ArrayBuffer` (reserved slot `OtherSlot`), the `tp_name` of the
wrapped Python object (reserved slot `PyObjectSlot`), and a counter of
`JS_NewFunction` allocations so far, used to model that each returned native
function object is a fresh one. -/
structure ProxyState where
  buffer : List Nat
  typeName : String
  nextFunId : Nat
deriving DecidableEq, Repr

/-- The names in `PyBytesProxyHandler::array_methods`, in table order. -/
def array_methods : List String :=
  ["toString", "valueOf", "entries", "keys", "values"]

/-- Modelled from the spec: `idToIndex` (declared in the shared proxy-handler
base, outside the files at hand) parses a property id as a nonnegative integer
array index — integer ids map to themselves, string ids must be the canonical
decimal rendering of a nonnegative integer, symbol ids never parse. -/
def strToIndex (s : String) : Option Nat :=
  if s.data ≠ [] ∧ s.data.all (fun c => c.isDigit) ∧
      (s.data = ['0'] ∨ s.data.head? ≠ some '0') then
    some (s.data.foldl (fun acc c => acc * 10 + (c.toNat - '0'.toNat)) 0)
  else
    none

/-- Modelled from the spec: `idToIndex` on a whole property id. -/
def idToIndex : JSId → Option Nat
  | .int n => some n
  | .str s => strToIndex s
  | .sym _ => none

/-- The outcome of `getOwnPropertyDescriptor`: which descriptor (if any) the
handler produced for the id, or whether it fell through to the generic
Python-attribute lookup (`PyObject_GetAttr` on the wrapped object, via
`handleGetOwnPropertyDescriptor` of the shared base handler). -/
inductive ResolvedProp where
  | method (name : String) (funId : Nat)
  | int32 (n : Nat)
  | bufferObject
  | uint8ArrayConstructor
  | iteratorFactory (funId : Nat)
  | noDescriptor
  | byteRead (index : Nat)
  | fallback (id : JSId)
deriving DecidableEq, Repr

/-- `PyBytesProxyHandler::getOwnPropertyDescriptor`, in source order: the
named-method scan over `array_methods` (a fresh `JS_NewFunction` per hit),
then the synthetic `length`/`byteLength`/`buffer`/`BYTES_PER_ELEMENT`/
`byteOffset`/`constructor` properties, then the symbol block (the iteration
symbol gets a fresh function wrapping `array_values`; any other symbol gets
no descriptor), then `idToIndex` followed by an unconditional `data[index]`
read, and finally the generic attribute fallback. -/
def PyBytesProxyHandler.getOwnPropertyDescriptor (s : ProxyState) (id : JSId) :
    ProxyState × ResolvedProp :=
  match id with
  | .str name =>
    if array_methods.contains name then
      ({ s with nextFunId := s.nextFunId + 1 }, .method name s.nextFunId)
    else if name = "length" || name = "byteLength" then
      (s, .int32 s.buffer.length)
    else if name = "buffer" then
      (s, .bufferObject)
    else if name = "BYTES_PER_ELEMENT" then
      (s, .int32 1)
    else if name = "byteOffset" then
      (s, .int32 0)
    else if name = "constructor" then
      (s, .uint8ArrayConstructor)
    else
      match strToIndex name with
      | some i => (s, .byteRead i)
      | none => (s, .fallback (.str name))
  | .int n => (s, .byteRead n)
  | .sym c =>
    if c = SymCode.iterator then
      ({ s with nextFunId := s.nextFunId + 1 }, .iteratorFactory s.nextFunId)
    else
      (s, .noDescriptor)

/-- Modelled from the spec: the five-step property-resolution precedence of
§4.2 as the claim states it — (1) named method lookup, (2) synthetic
well-known properties, (3) the iteration-protocol symbol, (4) numeric-index
lookup, (5) fallback to generic host-attribute lookup.  A key matching no
earlier step reaches the fallback.  Written for comparison with
`PyBytesProxyHandler.getOwnPropertyDescriptor`. -/
def specPropertyResolution (s : ProxyState) (id : JSId) :
    ProxyState × ResolvedProp :=
  match id with
  | .str name =>
    if array_methods.contains name then
      ({ s with nextFunId := s.nextFunId + 1 }, .method name s.nextFunId)
    else if name = "length" || name = "byteLength" then
      (s, .int32 s.buffer.length)
    else if name = "buffer" then
      (s, .bufferObject)
    else if name = "BYTES_PER_ELEMENT" then
      (s, .int32 1)
    else if name = "byteOffset" then
      (s, .int32 0)
    else if name = "constructor" then
      (s, .uint8ArrayConstructor)
    else
      match strToIndex name with
      | some i => (s, .byteRead i)
      | none => (s, .fallback (.str name))
  | .int n => (s, .byteRead n)
  | .sym c =>
    if c = SymCode.iterator then
      ({ s with nextFunId := s.nextFunId + 1 }, .iteratorFactory s.nextFunId)
    else
      (s, .fallback (.sym c))

/-- The engine value a `data[index]` read of the buffer actually delivers:
`none` marks a read past the end of the `ArrayBuffer` (an out-of-bounds read,
undefined behavior in the C++). -/
def deliveredByte (buffer : List Nat) (i : Nat) : Option Nat :=
  buffer.get? i

/-- The single-quote character, as it appears around the type name in the
read-only error message. -/
def sq : String := "\x27"

/-- The message `PyErr_Format(PyExc_TypeError, "..." , Py_TYPE(self)->tp_name)`
renders in `PyBytesProxyHandler::set`; `%.100s` keeps at most 100 bytes of
the type name. -/
def readOnlyMessage (typeName : String) : String :=
  sq ++ ⟨typeName.data.take 100⟩ ++ sq ++ " object has only read-only attributes"

/-- The observable outcome of a proxy `set` trap: the proxy state afterwards,
the Python exception class and message set, and whether the
`JS::ObjectOpResult` was marked `failReadOnly`. -/
structure SetOutcome where
  stateAfter : ProxyState
  errorKind : String
  errorMessage : String
  opFailedReadOnly : Bool
deriving DecidableEq, Repr

/-- `PyBytesProxyHandler::set`: blocks every modification — it touches no byte
of the buffer, raises a Python `TypeError` naming the wrapped object's type,
and returns `result.failReadOnly()`.  The attempted id and value are ignored
entirely. -/
def PyBytesProxyHandler.set {α : Type} (s : ProxyState) (id : JSId) (v : α) :
    SetOutcome :=
  { stateAfter := s
    errorKind := "TypeError"
    errorMessage := readOnlyMessage s.typeName
    opFailedReadOnly := true }

/-- The string-building loop of `array_valueOf`: for each index in
`0 .. byteLength-1`, append a comma first unless the index is 0, then the
decimal rendering of `data[index]`. -/
def valueOfLoop : List Nat → Nat → String → String
  | [], _, acc => acc
  | b :: rest, index, acc =>
    valueOfLoop rest (index + 1) ((if 0 < index then acc ++ "," else acc) ++ toString b)

/-- `array_valueOf`: renders the buffer contents as decimal byte values joined
by commas, starting from index 0 with an empty accumulator. -/
def array_valueOf (data : List Nat) : String :=
  valueOfLoop data 0 ""

/-- `array_toString` just delegates to `array_valueOf`. -/
def array_toString (data : List Nat) : String :=
  array_valueOf data

/-- Helper rendering: every byte prefixed by a comma. -/
def withCommas : List Nat → String
  | [] => ""
  | b :: rest => "," ++ toString b ++ withCommas rest

/-- The comma-joined decimal rendering of a byte list, as the spec describes
it: the bytes in decimal, separated by single commas. -/
def commaJoined : List Nat → String
  | [] => ""
  | [b] => toString b
  | b :: c :: rest => toString b ++ "," ++ commaJoined (c :: rest)

lemma valueOfLoop_pos : ∀ (data : List Nat) (i : Nat) (acc : String),
    valueOfLoop data (i + 1) acc = acc ++ withCommas data
  | [], _, acc => by
    simp [valueOfLoop, withCommas, String.append_empty]
  | b :: rest, i, acc => by
    rw [valueOfLoop, if_pos (Nat.succ_pos i),
      valueOfLoop_pos rest (i + 1) (acc ++ "," ++ toString b), withCommas]
    simp only [String.append_assoc]

lemma commaJoined_cons (b : Nat) (rest : List Nat) :
    commaJoined (b :: rest) = toString b ++ withCommas rest := by
  induction rest generalizing b with
  | nil => simp [commaJoined, withCommas, String.append_empty]
  | cons c rest ih =>
    rw [commaJoined, ih c, withCommas]
    simp only [String.append_assoc]

lemma array_valueOf_eq_commaJoined (data : List Nat) :
    array_valueOf data = commaJoined data := by
  cases data with
  | nil => rfl
  | cons b rest =>
    rw [array_valueOf, valueOfLoop, if_neg (Nat.lt_irrefl 0),
      valueOfLoop_pos rest 0 ("" ++ toString b), String.empty_append,
      commaJoined_cons]

/-- C3: every `set` through the proxy fails deterministically — the proxy
state (in particular every byte of the buffer) is unchanged, the op result is
`failReadOnly`, and the host sees a `TypeError` whose message is the
read-only-attribute text naming the wrapped object's type name (the `%.100s`
format keeps the whole name whenever it is at most 100 bytes). -/
theorem set_blocks_all_writes {α : Type} (s : ProxyState) (id : JSId) (v : α) :
    (PyBytesProxyHandler.set s id v).stateAfter = s ∧
    (PyBytesProxyHandler.set s id v).stateAfter.buffer = s.buffer ∧
    (PyBytesProxyHandler.set s id v).opFailedReadOnly = true ∧
    (PyBytesProxyHandler.set s id v).errorKind = "TypeError" ∧
    (PyBytesProxyHandler.set s id v).errorMessage = readOnlyMessage s.typeName ∧
    (s.typeName.data.length ≤ 100 →
      ∃ a b, (PyBytesProxyHandler.set s id v).errorMessage =
        a ++ s.typeName ++ b) := by
  refine ⟨rfl, rfl, rfl, rfl, rfl, fun hlen =>
    ⟨sq, sq ++ " object has only read-only attributes", ?_⟩⟩
  show readOnlyMessage s.typeName = _
  rw [readOnlyMessage]
  have hname : (⟨s.typeName.data.take 100⟩ : String) = s.typeName := by
    rw [List.take_of_length_le hlen]
  rw [hname, String.append_assoc]

/-- Witness for `set_blocks_all_writes` on the proxy over `[10, 20, 30]`
wrapping a Python object of type `bytes`: the error message names the type. -/
theorem set_blocks_all_writes_w :
    ∃ a b, (PyBytesProxyHandler.set ⟨[10, 20, 30], "bytes", 0⟩ (JSId.int 0)
        (5 : Nat)).errorMessage = a ++ "bytes" ++ b :=
  (set_blocks_all_writes ⟨[10, 20, 30], "bytes", 0⟩ (JSId.int 0)
    (5 : Nat)).2.2.2.2.2 (by decide)

/-- C5 counterexample: the claim says every property access follows the
five-step precedence ending in the generic host-attribute fallback, but for a
symbol other than the iteration-protocol symbol the handler returns no
descriptor at the symbol step — the spec-ordered dispatch would instead fall
through to the host-attribute lookup. -/
theorem proxy_resolution_foreign_symbol_cex :
    PyBytesProxyHandler.getOwnPropertyDescriptor ⟨[10, 20, 30], "bytes", 0⟩
        (.sym (.other 0)) ≠
      specPropertyResolution ⟨[10, 20, 30], "bytes", 0⟩ (.sym (.other 0)) := by
  decide

/-- C5 amended: resolution follows the claimed precedence — named methods
(each access allocating a fresh function), synthetic properties, the
iteration-protocol symbol (a fresh values-mode iterator factory), numeric
index, then the generic host-attribute fallback — for every integer key,
string key, and the iteration symbol; a symbol key other than the iteration
symbol instead resolves to no descriptor, never reaching the numeric-index or
fallback steps. -/
theorem proxy_resolution_precedence (s : ProxyState) (id : JSId) :
    (∀ k, id = .sym (.other k) →
      PyBytesProxyHandler.getOwnPropertyDescriptor s id = (s, .noDescriptor)) ∧
    ((∀ k, id ≠ .sym (.other k)) →
      PyBytesProxyHandler.getOwnPropertyDescriptor s id =
        specPropertyResolution s id) := by
  cases id with
  | int n => exact ⟨fun k hk => by simp at hk, fun _ => rfl⟩
  | str name => exact ⟨fun k hk => by simp at hk, fun _ => rfl⟩
  | sym c =>
    cases c with
    | iterator => exact ⟨fun k hk => by simp at hk, fun _ => rfl⟩
    | other k =>
      refine ⟨fun k2 hk => ?_, fun hno => absurd rfl (hno k)⟩
      simp [PyBytesProxyHandler.getOwnPropertyDescriptor]

/-- Witness for `proxy_resolution_precedence`: a foreign symbol resolves to no
descriptor, while the method name `keys` resolves exactly as the spec-ordered
dispatch does. -/
theorem proxy_resolution_precedence_w :
    PyBytesProxyHandler.getOwnPropertyDescriptor ⟨[10, 20, 30], "bytes", 0⟩
        (.sym (.other 0)) = (⟨[10, 20, 30], "bytes", 0⟩, .noDescriptor) ∧
    PyBytesProxyHandler.getOwnPropertyDescriptor ⟨[10, 20, 30], "bytes", 0⟩
        (.str "keys") =
      specPropertyResolution ⟨[10, 20, 30], "bytes", 0⟩ (.str "keys") :=
  ⟨(proxy_resolution_precedence ⟨[10, 20, 30], "bytes", 0⟩
      (.sym (.other 0))).1 0 rfl,
   (proxy_resolution_precedence ⟨[10, 20, 30], "bytes", 0⟩
      (.str "keys")).2 (fun k hk => JSId.noConfusion hk)⟩

/-- C6 (code bug): the numeric-index branch performs `data[index]` with no
bounds check — on the 3-byte buffer `[10, 20, 30]`, key `"1"` correctly
delivers byte 20, but key `"5"` also takes the byte-read branch (an
out-of-bounds read of the `ArrayBuffer`, `deliveredByte ... = none`) instead
of falling through to the generic host-attribute lookup as the spec
requires. -/
theorem proxy_index_read_no_bounds_check :
    (PyBytesProxyHandler.getOwnPropertyDescriptor ⟨[10, 20, 30], "bytes", 0⟩
        (.str "1")).2 = .byteRead 1 ∧
    deliveredByte [10, 20, 30] 1 = some 20 ∧
    (PyBytesProxyHandler.getOwnPropertyDescriptor ⟨[10, 20, 30], "bytes", 0⟩
        (.str "5")).2 = .byteRead 5 ∧
    (PyBytesProxyHandler.getOwnPropertyDescriptor ⟨[10, 20, 30], "bytes", 0⟩
        (.str "5")).2 ≠ .fallback (.str "5") ∧
    deliveredByte [10, 20, 30] 5 = none := by
  refine ⟨rfl, rfl, rfl, by decide, rfl⟩

/-- C7: on any proxy, `length` and `byteLength` both resolve to the buffer
length, `BYTES_PER_ELEMENT` to 1, `byteOffset` to 0, `buffer` to the
underlying raw-bytes object, `constructor` to the engine's native
`Uint8Array` constructor; `toString` delegates to `valueOf`, whose result is
the comma-joined decimal rendering of the bytes — `"10,20,30"` for the buffer
`[10, 20, 30]`. -/
theorem proxy_synthetic_properties (s : ProxyState) :
    (PyBytesProxyHandler.getOwnPropertyDescriptor s (.str "length")).2 =
      .int32 s.buffer.length ∧
    (PyBytesProxyHandler.getOwnPropertyDescriptor s (.str "byteLength")).2 =
      .int32 s.buffer.length ∧
    (PyBytesProxyHandler.getOwnPropertyDescriptor s
        (.str "BYTES_PER_ELEMENT")).2 = .int32 1 ∧
    (PyBytesProxyHandler.getOwnPropertyDescriptor s (.str "byteOffset")).2 =
      .int32 0 ∧
    (PyBytesProxyHandler.getOwnPropertyDescriptor s (.str "buffer")).2 =
      .bufferObject ∧
    (PyBytesProxyHandler.getOwnPropertyDescriptor s (.str "constructor")).2 =
      .uint8ArrayConstructor ∧
    array_toString s.buffer = array_valueOf s.buffer ∧
    array_valueOf s.buffer = commaJoined s.buffer ∧
    array_valueOf [10, 20, 30] = "10,20,30" :=
  ⟨rfl, rfl, rfl, rfl, rfl, rfl, rfl,
   array_valueOf_eq_commaJoined s.buffer, by decide⟩

/-! BytesIterator: the iterator-protocol adapter created by
`array_entries` / `array_keys` / `array_values` over the proxied buffer. -/

/-- `ITEM_KIND_KEY` from PyBytesProxyHandler.cc. -/
def ITEM_KIND_KEY : Nat := 0

/-- `ITEM_KIND_VALUE` from PyBytesProxyHandler.cc. -/
def ITEM_KIND_VALUE : Nat := 1

/-- `ITEM_KIND_KEY_AND_VALUE` from PyBytesProxyHandler.cc. -/
def ITEM_KIND_KEY_AND_VALUE : Nat := 2

/-- The mutable reserved slots of a `BytesIterator` object: the next-index
cursor (`BytesIteratorSlotNextIndex`, starts at 0) and the enumeration mode
tag (`BytesIteratorSlotItemKind`).  The iterated `ArrayBuffer`
(`BytesIteratorSlotIteratedObject`) is passed alongside. -/
structure BytesIterator where
  nextIndex : Nat
  itemKind : Nat
deriving DecidableEq, Repr

/-- A value yielded by `iterator_next`: an int32 (an index or a byte) or the
two-element array `[index, byte]` built for key-and-value mode. -/
inductive IterValue where
  | int32 (n : Nat)
  | pair (index byte : Nat)
deriving DecidableEq, Repr

/-- The plain result object `iterator_next` fills: its `done` property and its
`value` property (absent when iteration is finished). -/
structure IterResult where
  done : Bool
  value : Option IterValue
deriving DecidableEq, Repr

/-- `iterator_next`: when the cursor has reached the buffer length (sampled
fresh from the live `ArrayBuffer` on every call) it returns `{done: true}`
and leaves the slots untouched; otherwise it stores `nextIndex + 1` back into
the cursor slot and returns `{done: false, value: V}` with `V` chosen by the
item-kind tag — the byte `data[nextIndex]` for value mode, the array
`[nextIndex, data[nextIndex]]` for key-and-value mode, and the index itself
in the remaining (key) case. -/
def iterator_next (buffer : List Nat) (it : BytesIterator) :
    BytesIterator × IterResult :=
  if it.nextIndex ≥ buffer.length then
    (it, { done := true, value := none })
  else if it.itemKind = ITEM_KIND_VALUE then
    ({ it with nextIndex := it.nextIndex + 1 },
      { done := false, value := some (.int32 (buffer.getD it.nextIndex 0)) })
  else if it.itemKind = ITEM_KIND_KEY_AND_VALUE then
    ({ it with nextIndex := it.nextIndex + 1 },
      { done := false,
        value := some (.pair it.nextIndex (buffer.getD it.nextIndex 0)) })
  else
    ({ it with nextIndex := it.nextIndex + 1 },
      { done := false, value := some (.int32 it.nextIndex) })

/-- The iterator state after one `next()` call. -/
def nextState (buffer : List Nat) (it : BytesIterator) : BytesIterator :=
  (iterator_next buffer it).1

/-- The fresh iterators produced by `array_entries`, `array_keys` and
`array_values`: cursor 0 and the mode tag of the requested method. -/
def array_iterator_func (itemKind : Nat) : BytesIterator :=
  { nextIndex := 0, itemKind := itemKind }

/-- C4: a `next()` call with cursor at or past the buffer length returns
`done = true` with no value and leaves the state untouched, and the terminal
state is absorbing — after any number of further calls the result is still
`done = true` with no value and the same state; a call with cursor below the
length advances the cursor by exactly one and returns `done = false` with the
mode-determined value: the pre-advance index in keys mode, the byte at the
pre-advance index in values mode, and the pair `[index, byte]` in
key-and-value mode. -/
theorem iterator_next_spec (buffer : List Nat) (it : BytesIterator) :
    (buffer.length ≤ it.nextIndex →
      iterator_next buffer it = (it, { done := true, value := none }) ∧
      ∀ k : Nat, iterator_next buffer ((nextState buffer)^[k] it) =
        (it, { done := true, value := none })) ∧
    (it.nextIndex < buffer.length →
      (iterator_next buffer it).1 = { it with nextIndex := it.nextIndex + 1 } ∧
      (iterator_next buffer it).2.done = false ∧
      (it.itemKind = ITEM_KIND_KEY →
        (iterator_next buffer it).2.value = some (.int32 it.nextIndex)) ∧
      ∀ b, buffer[it.nextIndex]? = some b →
        (it.itemKind = ITEM_KIND_VALUE →
          (iterator_next buffer it).2.value = some (.int32 b)) ∧
        (it.itemKind = ITEM_KIND_KEY_AND_VALUE →
          (iterator_next buffer it).2.value =
            some (.pair it.nextIndex b))) := by
  constructor
  · intro hterm
    have hstep : iterator_next buffer it = (it, { done := true, value := none }) := by
      unfold iterator_next
      rw [if_pos hterm]
    have hfix : nextState buffer it = it := by rw [nextState, hstep]
    exact ⟨hstep, fun k => by rw [Function.iterate_fixed hfix k, hstep]⟩
  · intro hlt
    have hcond : ¬(it.nextIndex ≥ buffer.length) := not_le.mpr hlt
    unfold iterator_next
    rw [if_neg hcond]
    refine ⟨?_, ?_, ?_, ?_⟩
    · split_ifs <;> rfl
    · split_ifs <;> rfl
    · intro hk
      rw [hk]
      simp [ITEM_KIND_KEY, ITEM_KIND_VALUE, ITEM_KIND_KEY_AND_VALUE]
    · intro b hb
      constructor
      · intro hv
        rw [hv]
        simp [ITEM_KIND_VALUE, List.getD, hb]
      · intro hkv
        rw [hkv]
        simp [ITEM_KIND_VALUE, ITEM_KIND_KEY_AND_VALUE, List.getD, hb]

/-- Witness for `iterator_next_spec` on `[10, 20, 30]`: a terminal iterator is
absorbing across five further calls, and the three modes yield byte 20, pair
`[1, 20]`, and index 1 respectively from cursor 1. -/
theorem iterator_next_spec_w :
    iterator_next [10, 20, 30] ⟨3, 0⟩ =
      (⟨3, 0⟩, { done := true, value := none }) ∧
    iterator_next [10, 20, 30] ((nextState [10, 20, 30])^[5] ⟨3, 0⟩) =
      (⟨3, 0⟩, { done := true, value := none }) ∧
    (iterator_next [10, 20, 30] ⟨1, 1⟩).2.value = some (.int32 20) ∧
    (iterator_next [10, 20, 30] ⟨1, 2⟩).2.value = some (.pair 1 20) ∧
    (iterator_next [10, 20, 30] ⟨1, 0⟩).2.value = some (.int32 1) :=
  ⟨((iterator_next_spec [10, 20, 30] ⟨3, 0⟩).1 (by decide)).1,
   ((iterator_next_spec [10, 20, 30] ⟨3, 0⟩).1 (by decide)).2 5,
   (((iterator_next_spec [10, 20, 30] ⟨1, 1⟩).2 (by decide)).2.2.2 20
      (by decide)).1 rfl,
   (((iterator_next_spec [10, 20, 30] ⟨1, 2⟩).2 (by decide)).2.2.2 20
      (by decide)).2 rfl,
   ((iterator_next_spec [10, 20, 30] ⟨1, 0⟩).2 (by decide)).2.2.1 rfl⟩

/-! The `eval` entry point (pythonmonkey.cc) and the
`setSpiderMonkeyException` diagnostic builder. -/

/-- The fields of a SpiderMonkey `JSErrorReport` that
`setSpiderMonkeyException` reads. -/
structure JSErrorReport where
  filename : String
  lineno : Nat
  tokenOffset : Nat
  linebuf : Option String
deriving DecidableEq, Repr

/-- What the engine exposes about a pending exception: whether
`JS::GetPendingExceptionStack` succeeds, whether the `ErrorReportBuilder`
initializes, the report (`reportBuilder.report()` may be null), the rendered
engine message (`reportBuilder.toStringResult()`), and the rendered stack
(null when the exception has no stack). -/
structure PendingExceptionInfo where
  stackRetrievable : Bool
  reportInitOk : Bool
  errorReport : Option JSErrorReport
  errorMessage : String
  stack : Option String
deriving DecidableEq, Repr

/-- A run of `tokenOffset` spaces, placed under the offending line before the
caret. -/
def spacesOf (n : Nat) : String :=
  String.mk (List.replicate n ' ')

/-- `setSpiderMonkeyException`: the Python error message built from the
engine's pending exception — the generic bridge-failure texts when there is
no pending exception, the stack cannot be retrieved, or the report cannot be
initialized; otherwise the structured diagnostic: source location header,
the offending line with a column caret when a line buffer is present, the
engine's message, and the rendered stack trace when a stack exists. -/
def setSpiderMonkeyException : Option PendingExceptionInfo → String
  | none => "Spidermonkey failed, but spidermonkey did not set an exception."
  | some e =>
    if !e.stackRetrievable then
      "Spidermonkey set an exception, but was unable to retrieve it."
    else if !e.reportInitOk then
      "Spidermonkey set an exception, but could not initialize the error report."
    else
      (match e.errorReport with
        | none => ""
        | some r =>
          "Error in file " ++ r.filename ++ ", on line " ++ toString r.lineno
              ++ ":\n" ++
            (if (r.linebuf.getD "").length > 0 then
              r.linebuf.getD "" ++ "\n" ++ spacesOf r.tokenOffset ++ "^\n"
            else "")) ++
      e.errorMessage ++ "\n" ++
      (match e.stack with
        | none => ""
        | some st => "Stack Trace: \n" ++ st)

/-- The seven components `eval` extracts from a JS `Date` via
`getFullYear` .. `getMilliseconds`. -/
structure DateParts where
  year : Int
  month : Int
  day : Int
  hour : Int
  minute : Int
  second : Int
  usecond : Int
deriving DecidableEq, Repr

/-- A JavaScript value as `eval` discriminates it, following the
`JS::Value` predicates it tests in order: `isUndefined`, `isNull`,
`isBoolean`, `isNumber`, `isString`, `isSymbol`, `isBigInt`, `isObject`
(with the date sub-case), `isMagic`.  The numeric payload stands for the
double `toNumber()` yields. -/
inductive JSValue where
  | undefined
  | null
  | boolean (b : Bool)
  | number (x : ℚ)
  | string (s : String)
  | symbol
  | bigint
  | object (date : Option DateParts)
  | magic
deriving DecidableEq, Repr

/-- A Python value as returned to the caller of `eval`. -/
inductive PyResult where
  | pyNone
  | bool (b : Bool)
  | float (x : ℚ)
  | int (n : Int)
  | str (s : String)
  | datetime (year month day hour minute second usecond : Int)
deriving DecidableEq, Repr

/-- The observable outcome of translating a successful evaluation result: the
diagnostic notice printed for an unhandled value category (if any), and the
Python value returned.  For strings the code additionally registers the
fresh wrapper and its persistent root in the liveness table
(`memoizePyTypeAndGCThing`); the table side is modelled separately by
`Entry`/`sweepGo`. -/
structure Translated where
  notice : Option String
  result : PyResult
deriving DecidableEq, Repr

/-- The result-translation chain of `eval` (pythonmonkey.cc): the unhandled
categories print a notice and leave the return value NULL (so the caller gets
`None`); booleans, numbers, strings and date objects convert; a number —
integral or not — always becomes a Python float via `toNumber()`; a date
object becomes a `datetime` with the month shifted by one; a non-date object
also leaves the return value NULL, silently. -/
def translateResult : JSValue → Translated
  | .undefined =>
    ⟨some "undefined type is not handled by PythonMonkey yet", .pyNone⟩
  | .null => ⟨some "null type is not handled by PythonMonkey yet", .pyNone⟩
  | .boolean b => ⟨none, .bool b⟩
  | .number x => ⟨none, .float x⟩
  | .string s => ⟨none, .str s⟩
  | .symbol => ⟨some "symbol type is not handled by PythonMonkey yet", .pyNone⟩
  | .bigint => ⟨some "bigint type is not handled by PythonMonkey yet", .pyNone⟩
  | .object (some d) =>
    ⟨none, .datetime d.year (d.month + 1) d.day d.hour d.minute d.second
      d.usecond⟩
  | .object none => ⟨none, .pyNone⟩
  | .magic => ⟨some "magic type is not handled by PythonMonkey yet", .pyNone⟩

/-- What the engine did with the script `eval` was given (after its
string-argument check): whether `source.init` succeeded, and the value
`JS::Evaluate` produced — `none` when `JS::Evaluate` returned false, i.e. the
engine signaled a failure. -/
structure EvalInput where
  sourceInitOk : Bool
  result : Option JSValue
deriving DecidableEq, Repr

/-- The outcome `eval` hands the host: a raised Python exception (class name
and message), or a normal return with an optional printed notice. -/
inductive EvalResult where
  | raise (errorType : String) (message : String)
  | ok (notice : Option String) (result : PyResult)
deriving DecidableEq, Repr

/-- `eval` (pythonmonkey.cc): a `source.init` failure and a `JS::Evaluate`
failure each raise a `RuntimeError` with a fixed message — the evaluate
branch never consults the pending engine exception (its TODO comment says JS
exception capture is unimplemented) — and a successful evaluation is handed
to the result-translation chain. -/
def eval (inp : EvalInput) : EvalResult :=
  if !inp.sourceInitOk then
    .raise "RuntimeError" "Spidermonkey could not initialize with given JS code."
  else
    match inp.result with
    | none =>
      .raise "RuntimeError" "Spidermonkey could not evaluate the given JS code."
    | some v => .ok (translateResult v).notice (translateResult v).result

/-- A concrete pending engine exception: `throw 1;` at line 1 of file
`noname`, with a line buffer, a zero column offset, and a one-frame stack. -/
def sampleException : PendingExceptionInfo :=
  { stackRetrievable := true
    reportInitOk := true
    errorReport := some
      { filename := "noname", lineno := 1, tokenOffset := 0,
        linebuf := some "throw 1;" }
    errorMessage := "uncaught exception: 1"
    stack := some "@noname:1:1" }

/-- C8 (code bug): when the engine signals an exception, `eval` raises a
`RuntimeError` with the fixed text "Spidermonkey could not evaluate the given
JS code." and never reads the pending exception, although
`setSpiderMonkeyException` — documented to be called whenever a JS API call
fails — builds exactly the structured diagnostic the spec describes, shown
here on a concrete pending exception. -/
theorem eval_engine_failure_generic_message :
    eval ⟨true, none⟩ =
      .raise "RuntimeError"
        "Spidermonkey could not evaluate the given JS code." ∧
    setSpiderMonkeyException (some sampleException) =
      "Error in file noname, on line 1:\nthrow 1;\n^\nuncaught exception: 1\nStack Trace: \n@noname:1:1" ∧
    "Spidermonkey could not evaluate the given JS code." ≠
      setSpiderMonkeyException (some sampleException) := by
  refine ⟨rfl, rfl, by decide⟩

/-- C9: each unsupported value category — undefined, null, symbol, bigint,
and the engine's internal magic values — makes `eval` return normally with
`None`, printing the category's diagnostic notice rather than failing. -/
theorem unsupported_results_degrade_to_none :
    eval ⟨true, some .undefined⟩ =
      .ok (some "undefined type is not handled by PythonMonkey yet") .pyNone ∧
    eval ⟨true, some .null⟩ =
      .ok (some "null type is not handled by PythonMonkey yet") .pyNone ∧
    eval ⟨true, some .symbol⟩ =
      .ok (some "symbol type is not handled by PythonMonkey yet") .pyNone ∧
    eval ⟨true, some .bigint⟩ =
      .ok (some "bigint type is not handled by PythonMonkey yet") .pyNone ∧
    eval ⟨true, some .magic⟩ =
      .ok (some "magic type is not handled by PythonMonkey yet") .pyNone :=
  ⟨rfl, rfl, rfl, rfl, rfl⟩

/-- C10: a numeric evaluation result — integral or not — is returned to the
host as a Python float built from `toNumber()`, and no evaluation outcome
whatsoever is a Python integer. -/
theorem eval_number_always_float (x : ℚ) :
    eval ⟨true, some (.number x)⟩ = .ok none (.float x) ∧
    ∀ (inp : EvalInput) (o : Option String) (n : Int),
      eval inp ≠ .ok o (.int n) := by
  refine ⟨rfl, ?_⟩
  rintro ⟨si, res⟩ o n h
  cases si with
  | false => exact absurd h (by simp [eval])
  | true =>
    cases res with
    | none => exact absurd h (by simp [eval])
    | some v =>
      cases v
      case object od =>
        cases od <;> simp [eval, translateResult] at h
      all_goals simp [eval, translateResult] at h

/-- Witness for `eval_number_always_float` at the integral number 3: the
host receives the float 3, never the integer 3. -/
theorem eval_number_always_float_w :
    eval ⟨true, some (.number 3)⟩ = .ok none (.float 3) ∧
    eval ⟨true, some (.number 3)⟩ ≠ .ok none (.int 3) :=
  ⟨(eval_number_always_float 3).1,
   (eval_number_always_float 3).2 ⟨true, some (.number 3)⟩ none 3⟩

end PythonMonkey
